import Mathlib

/-
Verification of the Greater Manchester brownfield restoration pipeline
(src/gee/analysis.js) against its design specification.

The Earth Engine script is shallowly embedded: raster pixel values are
rationals (masked pixels are Option.none), the per-pixel normalizers are
functions on the rationals, a region reduction is the mean over the defined
pixel values covered by a site's sampling buffer, and Earth Engine's
null-propagating number arithmetic is Option-valued arithmetic.
-/

namespace GMBrownfield

/-- Earth Engine clamp: values below lo are set to lo, values above hi to hi
    (analysis.js uses .clamp(0, 1) on the water and slope rasters). -/
def clampQ (x lo hi : ℚ) : ℚ := min (max x lo) hi

/-- Per-pixel water-distance normalizer, from analysis.js line 115:
    riverDistance.divide(5000).multiply(-1).add(1).clamp(0, 1). -/
def waterRisk (d : ℚ) : ℚ := clampQ (d / 5000 * (-1) + 1) 0 1

/-- Per-pixel soil normalizer, from analysis.js line 120:
    soilTexture.divide(12) - no clamp. -/
def soilRisk (c : ℚ) : ℚ := c / 12

/-- Per-pixel slope normalizer, from analysis.js line 124:
    slope.divide(30).multiply(-1).add(1).clamp(0, 1). -/
def slopeRisk (s : ℚ) : ℚ := clampQ (s / 30 * (-1) + 1) 0 1

/-- Attribute values carried by register features: strings or numbers. -/
inductive Value where
  | str : String → Value
  | num : ℚ → Value
deriving DecidableEq

/-- A register feature: a point geometry (longitude, latitude) and a record
    of named attributes; an absent attribute is none (Earth Engine reads an
    absent property as null). -/
structure Feature where
  geom : ℚ × ℚ
  props : String → Option Value

/-- An axis-aligned bounding rectangle (lonMin, latMin, lonMax, latMax). -/
structure Rect where
  lonMin : ℚ
  latMin : ℚ
  lonMax : ℚ
  latMax : ℚ

/-- The study rectangle from analysis.js line 8:
    ee.Geometry.Rectangle([-2.7, 53.35, -1.95, 53.65]). -/
def greaterManchester : Rect :=
  { lonMin := -27/10, latMin := 5335/100, lonMax := -195/100, latMax := 5365/100 }

/-- A point geometry intersects a rectangle iff it lies inside it. -/
def Rect.containsPoint (r : Rect) (p : ℚ × ℚ) : Bool :=
  decide (r.lonMin ≤ p.1 ∧ p.1 ≤ r.lonMax ∧ r.latMin ≤ p.2 ∧ p.2 ≤ r.latMax)

/-- table.filterBounds(rect): keep features whose geometry intersects rect. -/
def filterBounds (r : Rect) (fs : List Feature) : List Feature :=
  fs.filter (fun f => r.containsPoint f.geom)

/-- The register filter of analysis.js lines 19-22:
    ee.Filter.or(eq('end-date', ''), eq('end-date', null)); an absent
    property compares equal to null. -/
def isActive (f : Feature) : Bool :=
  decide (f.props "end-date" = some (Value.str "") ∨ f.props "end-date" = none)

/-- brownfieldGM, analysis.js lines 16-22: filter the register to the study
    rectangle, then to features whose end-date is empty or absent. -/
def brownfieldGM (table : List Feature) : List Feature :=
  (filterBounds greaterManchester table).filter isActive

/-- A raster, seen through the sampling step: for each site point it yields
    the pixel values covered by the point's 30 m buffer at scale 30; a
    masked pixel is none. -/
def Raster : Type := ℚ × ℚ → List (Option ℚ)

/-- A per-pixel image operation; masked pixels stay masked. -/
def mapRaster (g : ℚ → ℚ) (r : Raster) : Raster :=
  fun p => (r p).map (Option.map g)

/-- reduceRegion with ee.Reducer.mean(): the mean of the defined pixel
    values, or null when no pixel in the region carries a defined value. -/
def reduceRegionMean (pixels : List (Option ℚ)) : Option ℚ :=
  let vals := pixels.filterMap id
  if vals = [] then none else some (vals.sum / vals.length)

/-- Sampling a raster at a site, analysis.js lines 136-152. -/
def sampleMean (r : Raster) (p : ℚ × ℚ) : Option ℚ :=
  reduceRegionMean (r p)

/-- Earth Engine number addition: null operands propagate to a null result. -/
def eeAdd (a b : Option ℚ) : Option ℚ :=
  a.bind (fun x => b.map (fun y => x + y))

/-- Earth Engine division by a constant: a null operand yields null. -/
def eeDiv (a : Option ℚ) (c : ℚ) : Option ℚ :=
  a.map (fun x => x / c)

/-- totalRisk, analysis.js line 155:
    ee.Number(w).add(s).add(l).divide(3), with Earth Engine nulls. -/
def totalRisk (w s l : Option ℚ) : Option ℚ :=
  eeDiv (eeAdd (eeAdd w s) l) 3

/-- The four property names attached by the scoring step. -/
def riskKeys : List String := ["water_risk", "soil_risk", "slope_risk", "total_risk"]

/-- addRiskFactors, analysis.js lines 131-164: sample the three normalized
    rasters at the site's buffered point and set the four risk properties on
    the feature. -/
def addRiskFactors (riverDistance soilTexture slope : Raster) (f : Feature) : Feature :=
  let w := sampleMean (mapRaster waterRisk riverDistance) f.geom
  let s := sampleMean (mapRaster soilRisk soilTexture) f.geom
  let l := sampleMean (mapRaster slopeRisk slope) f.geom
  let t := totalRisk w s l
  { geom := f.geom
    props := fun k =>
      if k = "water_risk" then Option.map Value.num w
      else if k = "soil_risk" then Option.map Value.num s
      else if k = "slope_risk" then Option.map Value.num l
      else if k = "total_risk" then Option.map Value.num t
      else f.props k }

/-- brownfieldWithRisk, analysis.js line 167: score every filtered site. -/
def brownfieldWithRisk (rd st sl : Raster) (table : List Feature) : List Feature :=
  (brownfieldGM table).map (addRiskFactors rd st sl)

/-- The whole filter-normalize-sample-score pipeline over a register table. -/
def runPipeline (rd st sl : Raster) (table : List Feature) : List Feature :=
  brownfieldWithRisk rd st sl table

/-- The export column list of analysis.js lines 179-181 (the selectors
    argument of Export.table.toDrive). -/
def selectors : List String :=
  ["reference", "name", "site-addre", "hectares", "ownership-", "planning_2",
   "water_risk", "soil_risk", "slope_risk", "total_risk"]

/-- The column list the specification claims for the exported table. -/
def claimedColumns : List String :=
  ["reference", "name", "site-address", "hectares", "ownership", "planning_status",
   "water_risk", "soil_risk", "slope_risk", "total_risk"]

/-- One exported row: the selected properties of one scored feature. -/
def exportRow (f : Feature) : List (Option Value) :=
  selectors.map f.props

/-- The exported table: one row per feature of the scored collection. -/
def exportTable (fs : List Feature) : List (List (Option Value)) :=
  fs.map exportRow

/-- Clamping to [lo, hi] is monotone in its argument. -/
theorem clampQ_mono {x y lo hi : ℚ} (h : x ≤ y) :
    clampQ x lo hi ≤ clampQ y lo hi :=
  min_le_min (max_le_max h le_rfl) le_rfl

/-- C3: the water-distance normalizer is clamp(1 - d/5000, 0, 1): for d ≥ 0
its value lies in [0,1], it equals 1 at d = 0 and 0 for every d ≥ 5000. -/
theorem waterRisk_spec (d : ℚ) (hd : 0 ≤ d) :
    waterRisk d = clampQ (1 - d / 5000) 0 1 ∧
    0 ≤ waterRisk d ∧ waterRisk d ≤ 1 ∧
    (d = 0 → waterRisk d = 1) ∧
    (5000 ≤ d → waterRisk d = 0) := by
  refine ⟨by unfold waterRisk; ring_nf, ?_, ?_, ?_, ?_⟩
  · exact le_min (le_max_right _ _) (by norm_num)
  · exact min_le_right _ _
  · intro h; subst h; unfold waterRisk clampQ; norm_num
  · intro h
    unfold waterRisk clampQ
    have hx : d / 5000 * (-1) + 1 ≤ 0 := by linarith
    rw [max_eq_right hx]
    norm_num

/-- Witness for waterRisk_spec at d = 6000. -/
theorem waterRisk_spec_witness :
    0 ≤ (6000 : ℚ) ∧ waterRisk 6000 = 0 :=
  ⟨by norm_num, (waterRisk_spec 6000 (by norm_num)).2.2.2.2 (by norm_num)⟩

/-- C4: the slope normalizer is clamp(1 - s/30, 0, 1): for s ≥ 0 its value
lies in [0,1], it equals 1 at s = 0 and 0 for every s ≥ 30. -/
theorem slopeRisk_spec (s : ℚ) (hs : 0 ≤ s) :
    slopeRisk s = clampQ (1 - s / 30) 0 1 ∧
    0 ≤ slopeRisk s ∧ slopeRisk s ≤ 1 ∧
    (s = 0 → slopeRisk s = 1) ∧
    (30 ≤ s → slopeRisk s = 0) := by
  refine ⟨by unfold slopeRisk; ring_nf, ?_, ?_, ?_, ?_⟩
  · exact le_min (le_max_right _ _) (by norm_num)
  · exact min_le_right _ _
  · intro h; subst h; unfold slopeRisk clampQ; norm_num
  · intro h
    unfold slopeRisk clampQ
    have hx : s / 30 * (-1) + 1 ≤ 0 := by linarith
    rw [max_eq_right hx]
    norm_num

/-- Witness for slopeRisk_spec at s = 45. -/
theorem slopeRisk_spec_witness :
    0 ≤ (45 : ℚ) ∧ slopeRisk 45 = 0 :=
  ⟨by norm_num, (slopeRisk_spec 45 (by norm_num)).2.2.2.2 (by norm_num)⟩

/-- C5: on soil texture classes in [1,12] the soil normalizer returns exactly
c/12 with no clamping, and it is strictly increasing in the class. -/
theorem soilRisk_spec (c₁ c₂ : ℚ)
    (h₁ : 1 ≤ c₁) (h₁' : c₁ ≤ 12) (h₂ : 1 ≤ c₂) (h₂' : c₂ ≤ 12) :
    soilRisk c₁ = c₁ / 12 ∧
    (c₁ < c₂ → soilRisk c₁ < soilRisk c₂) := by
  constructor
  · rfl
  · intro hlt
    unfold soilRisk
    linarith

/-- Witness for soilRisk_spec at classes 3 and 7. -/
theorem soilRisk_spec_witness :
    soilRisk 3 = 3 / 12 ∧ soilRisk 3 < soilRisk 7 :=
  ⟨(soilRisk_spec 3 7 (by norm_num) (by norm_num) (by norm_num) (by norm_num)).1,
   (soilRisk_spec 3 7 (by norm_num) (by norm_num) (by norm_num) (by norm_num)).2
     (by norm_num)⟩

/-- C10: the water-distance normalizer is monotonically non-increasing:
0 ≤ d₁ ≤ d₂ implies waterRisk d₁ ≥ waterRisk d₂. -/
theorem waterRisk_antitone (d₁ d₂ : ℚ) (h0 : 0 ≤ d₁) (h : d₁ ≤ d₂) :
    waterRisk d₂ ≤ waterRisk d₁ := by
  unfold waterRisk
  exact clampQ_mono (by linarith)

/-- Witness for waterRisk_antitone at distances 100 and 2600. -/
theorem waterRisk_antitone_witness :
    waterRisk 2600 ≤ waterRisk 100 :=
  waterRisk_antitone 100 2600 (by norm_num) (by norm_num)

/-- A raster whose 30 m buffer around any point covers a single pixel of a
    fixed value (none: a masked pixel). -/
def constRaster (v : Option ℚ) : Raster := fun _ => [v]

/-- A concrete register feature inside the study rectangle, still active. -/
def site : Feature :=
  { geom := (-11/5, 107/2)
    props := fun k =>
      if k = "reference" then some (Value.str "P4530001")
      else if k = "hectares" then some (Value.num 2)
      else none }

/-- A concrete register feature inside the study rectangle whose end-date is
    present and non-empty. -/
def closedSite : Feature :=
  { geom := (-11/5, 107/2)
    props := fun k =>
      if k = "end-date" then some (Value.str "2020-01-01") else none }

/-- Sampling a constant one-pixel raster through a normalizer yields the
    normalized pixel value. -/
theorem sampleMean_const (g : ℚ → ℚ) (v : ℚ) (p : ℚ × ℚ) :
    sampleMean (mapRaster g (constRaster (some v))) p = some (g v) := by
  simp [sampleMean, mapRaster, constRaster, reduceRegionMean]

/-- Sampling a raster whose buffer holds only a masked pixel yields null. -/
theorem sampleMean_masked (g : ℚ → ℚ) (p : ℚ × ℚ) :
    sampleMean (mapRaster g (constRaster none)) p = none := by
  simp [sampleMean, mapRaster, constRaster, reduceRegionMean]

/-- The concrete site survives the region-and-register filter. -/
theorem site_mem_brownfieldGM : site ∈ brownfieldGM [site] := by
  unfold brownfieldGM filterBounds isActive
  simp only [List.filter, List.mem_filter, Rect.containsPoint, greaterManchester, site]
  norm_num
  decide

/-- Earth Engine null arithmetic sends a null operand to a null total. -/
theorem totalRisk_none_of_none (w s l : Option ℚ)
    (h : w = none ∨ s = none ∨ l = none) : totalRisk w s l = none := by
  rcases h with h | h | h
  · subst h; simp [totalRisk, eeAdd, eeDiv]
  · subst h; cases w <;> simp [totalRisk, eeAdd, eeDiv]
  · subst h; cases w <;> cases s <;> simp [totalRisk, eeAdd, eeDiv]

/-- The total-risk property attached by addRiskFactors, read back. -/
theorem addRiskFactors_total (rd st sl : Raster) (f : Feature) :
    (addRiskFactors rd st sl f).props "total_risk" =
      Option.map Value.num (totalRisk
        (sampleMean (mapRaster waterRisk rd) f.geom)
        (sampleMean (mapRaster soilRisk st) f.geom)
        (sampleMean (mapRaster slopeRisk sl) f.geom)) := rfl

/-- C1: for every site whose three sub-score samplings are defined, the
attached total_risk is exactly the unweighted mean of the three sub-scores. -/
theorem totalRisk_is_mean (rd st sl : Raster) (f : Feature) (w s l : ℚ)
    (hw : sampleMean (mapRaster waterRisk rd) f.geom = some w)
    (hs : sampleMean (mapRaster soilRisk st) f.geom = some s)
    (hl : sampleMean (mapRaster slopeRisk sl) f.geom = some l) :
    (addRiskFactors rd st sl f).props "total_risk" =
      some (Value.num ((w + s + l) / 3)) := by
  rw [addRiskFactors_total, hw, hs, hl]
  simp [totalRisk, eeAdd, eeDiv]

/-- Witness for totalRisk_is_mean: a site sampling distance 0 to water, soil
    class 12 and slope 0 scores total_risk (1 + 1 + 1) / 3. -/
theorem totalRisk_is_mean_witness :
    (addRiskFactors (constRaster (some 0)) (constRaster (some 12))
        (constRaster (some 0)) site).props "total_risk" =
      some (Value.num ((1 + 1 + 1) / 3)) :=
  totalRisk_is_mean _ _ _ site 1 1 1
    (by rw [sampleMean_const]; norm_num [waterRisk, clampQ])
    (by rw [sampleMean_const]; norm_num [soilRisk])
    (by rw [sampleMean_const]; norm_num [slopeRisk, clampQ])

/-- C2: a failed region reduction leaves the corresponding sub-score
undefined and makes total_risk undefined; the site is still scored into the
output, and the output is the independent per-site map over all filtered
sites, so one site's failure touches no other site. -/
theorem missing_sample_propagates (rd st sl : Raster) (table : List Feature)
    (f : Feature) (hf : f ∈ brownfieldGM table)
    (hmiss : sampleMean (mapRaster waterRisk rd) f.geom = none ∨
             sampleMean (mapRaster soilRisk st) f.geom = none ∨
             sampleMean (mapRaster slopeRisk sl) f.geom = none) :
    (addRiskFactors rd st sl f).props "total_risk" = none ∧
    (sampleMean (mapRaster waterRisk rd) f.geom = none →
      (addRiskFactors rd st sl f).props "water_risk" = none) ∧
    (sampleMean (mapRaster soilRisk st) f.geom = none →
      (addRiskFactors rd st sl f).props "soil_risk" = none) ∧
    (sampleMean (mapRaster slopeRisk sl) f.geom = none →
      (addRiskFactors rd st sl f).props "slope_risk" = none) ∧
    addRiskFactors rd st sl f ∈ brownfieldWithRisk rd st sl table ∧
    brownfieldWithRisk rd st sl table =
      (brownfieldGM table).map (addRiskFactors rd st sl) := by
  refine ⟨?_, ?_, ?_, ?_, ?_, rfl⟩
  · rw [addRiskFactors_total, totalRisk_none_of_none _ _ _ hmiss]
    rfl
  · intro h
    show Option.map Value.num (sampleMean (mapRaster waterRisk rd) f.geom) = none
    rw [h]; rfl
  · intro h
    show Option.map Value.num (sampleMean (mapRaster soilRisk st) f.geom) = none
    rw [h]; rfl
  · intro h
    show Option.map Value.num (sampleMean (mapRaster slopeRisk sl) f.geom) = none
    rw [h]; rfl
  · exact List.mem_map_of_mem _ hf

/-- Witness for missing_sample_propagates: a site whose buffer covers only a
    masked water-distance pixel gets a null total_risk yet stays in the
    scored output. -/
theorem missing_sample_propagates_witness :
    (addRiskFactors (constRaster none) (constRaster (some 12))
        (constRaster (some 0)) site).props "total_risk" = none ∧
    addRiskFactors (constRaster none) (constRaster (some 12))
        (constRaster (some 0)) site
      ∈ brownfieldWithRisk (constRaster none) (constRaster (some 12))
          (constRaster (some 0)) [site] := by
  have h := missing_sample_propagates (constRaster none) (constRaster (some 12))
    (constRaster (some 0)) [site] site
    site_mem_brownfieldGM
    (Or.inl (sampleMean_masked waterRisk site.geom))
  exact ⟨h.1, h.2.2.2.2.1⟩

/-- C6: the region-and-register filter retains exactly the features that lie
in the study rectangle and whose end-date is the empty string or absent; a
present non-empty end-date is never retained, an absent one is. -/
theorem brownfieldGM_filter_spec (table : List Feature) (f : Feature) :
    (f ∈ brownfieldGM table ↔
      f ∈ table ∧ greaterManchester.containsPoint f.geom = true ∧
        (f.props "end-date" = some (Value.str "") ∨
          f.props "end-date" = none)) ∧
    (∀ v : Value, f.props "end-date" = some v → v ≠ Value.str "" →
      f ∉ brownfieldGM table) ∧
    (f ∈ table → greaterManchester.containsPoint f.geom = true →
      f.props "end-date" = none → f ∈ brownfieldGM table) := by
  have hiff : f ∈ brownfieldGM table ↔
      f ∈ table ∧ greaterManchester.containsPoint f.geom = true ∧
        (f.props "end-date" = some (Value.str "") ∨
          f.props "end-date" = none) := by
    unfold brownfieldGM filterBounds isActive
    simp only [List.mem_filter, decide_eq_true_eq]
    tauto
  refine ⟨hiff, ?_, ?_⟩
  · intro v hv hne hmem
    rcases (hiff.mp hmem).2.2 with h | h
    · rw [hv] at h
      exact hne (Option.some.inj h)
    · rw [hv] at h
      exact Option.noConfusion h
  · intro h₁ h₂ h₃
    exact hiff.mpr ⟨h₁, h₂, Or.inr h₃⟩

/-- Witness for brownfieldGM_filter_spec: a feature with end-date
    2020-01-01 is not retained even from a register containing it. -/
theorem brownfieldGM_filter_spec_witness :
    closedSite ∉ brownfieldGM [closedSite] :=
  (brownfieldGM_filter_spec [closedSite] closedSite).2.1
    (Value.str "2020-01-01") (by decide) (by decide)

/-- C7 counterexample: the exported selectors are not the columns the claim
lists; the address, ownership and planning columns carry the truncated
shapefile field names. -/
theorem export_columns_counterexample :
    selectors ≠ claimedColumns ∧
    "site-address" ∈ claimedColumns ∧ "site-address" ∉ selectors ∧
    "ownership" ∈ claimedColumns ∧ "ownership" ∉ selectors ∧
    "planning_status" ∈ claimedColumns ∧ "planning_status" ∉ selectors := by
  decide

/-- C7 amended: the exported table has one row per scored feature, and each
row holds exactly the ten selector columns reference, name, site-addre,
hectares, ownership-, planning_2, water_risk, soil_risk, slope_risk and
total_risk, in that order. -/
theorem export_table_spec (fs : List Feature) :
    (exportTable fs).length = fs.length ∧
    selectors.length = 10 ∧
    (∀ f ∈ fs, exportRow f ∈ exportTable fs ∧
      exportRow f = [f.props "reference", f.props "name",
        f.props "site-addre", f.props "hectares", f.props "ownership-",
        f.props "planning_2", f.props "water_risk", f.props "soil_risk",
        f.props "slope_risk", f.props "total_risk"]) := by
  refine ⟨List.length_map _ _, by decide, ?_⟩
  intro f hf
  exact ⟨List.mem_map_of_mem _ hf, rfl⟩

/-- Witness for export_table_spec on the one-site register. -/
theorem export_table_spec_witness :
    (exportTable [site]).length = [site].length ∧
    exportRow site ∈ exportTable [site] :=
  ⟨(export_table_spec [site]).1,
   ((export_table_spec [site]).2.2 site (List.Mem.head _)).1⟩

/-- C8: the scoring step keeps the geometry, keeps every property outside
the four risk keys - in particular every pre-existing attribute of a
register feature that carries none of the risk keys - and sets exactly the
four risk properties to the sampled values. -/
theorem addRiskFactors_frame (rd st sl : Raster) (f : Feature)
    (hfresh : ∀ k ∈ riskKeys, f.props k = none) :
    (addRiskFactors rd st sl f).geom = f.geom ∧
    (∀ k, k ∉ riskKeys → (addRiskFactors rd st sl f).props k = f.props k) ∧
    (∀ k v, f.props k = some v →
      (addRiskFactors rd st sl f).props k = some v) ∧
    (addRiskFactors rd st sl f).props "water_risk" =
      Option.map Value.num (sampleMean (mapRaster waterRisk rd) f.geom) ∧
    (addRiskFactors rd st sl f).props "soil_risk" =
      Option.map Value.num (sampleMean (mapRaster soilRisk st) f.geom) ∧
    (addRiskFactors rd st sl f).props "slope_risk" =
      Option.map Value.num (sampleMean (mapRaster slopeRisk sl) f.geom) ∧
    (addRiskFactors rd st sl f).props "total_risk" =
      Option.map Value.num (totalRisk
        (sampleMean (mapRaster waterRisk rd) f.geom)
        (sampleMean (mapRaster soilRisk st) f.geom)
        (sampleMean (mapRaster slopeRisk sl) f.geom)) := by
  have hout : ∀ k, k ∉ riskKeys →
      (addRiskFactors rd st sl f).props k = f.props k := by
    intro k hk
    have hk4 : ¬k = "water_risk" ∧ ¬k = "soil_risk" ∧
        ¬k = "slope_risk" ∧ ¬k = "total_risk" := by
      simpa [riskKeys] using hk
    show (if k = "water_risk" then _
      else if k = "soil_risk" then _
      else if k = "slope_risk" then _
      else if k = "total_risk" then _
      else f.props k) = f.props k
    rw [if_neg hk4.1, if_neg hk4.2.1, if_neg hk4.2.2.1, if_neg hk4.2.2.2]
  refine ⟨rfl, hout, ?_, rfl, rfl, rfl, rfl⟩
  intro k v hv
  have hk : k ∉ riskKeys := by
    intro hkk
    rw [hfresh k hkk] at hv
    exact Option.noConfusion hv
  rw [hout k hk, hv]

/-- Witness for addRiskFactors_frame: scoring the concrete site keeps its
    geometry and its reference attribute. -/
theorem addRiskFactors_frame_witness :
    (addRiskFactors (constRaster (some 0)) (constRaster (some 12))
        (constRaster (some 0)) site).geom = site.geom ∧
    (addRiskFactors (constRaster (some 0)) (constRaster (some 12))
        (constRaster (some 0)) site).props "reference" =
      some (Value.str "P4530001") :=
  ⟨(addRiskFactors_frame _ _ _ site (by decide)).1,
   (addRiskFactors_frame _ _ _ site (by decide)).2.2.1 "reference"
     (Value.str "P4530001") (by decide)⟩

/-- C9: the pipeline is a pure function of the register and the rasters:
two runs on the same input produce identical scored output. -/
theorem pipeline_deterministic (rd st sl : Raster) (table : List Feature)
    (out₁ out₂ : List Feature)
    (h₁ : out₁ = runPipeline rd st sl table)
    (h₂ : out₂ = runPipeline rd st sl table) :
    out₁ = out₂ :=
  h₁.trans h₂.symm

/-- Witness for pipeline_deterministic on the one-site register. -/
theorem pipeline_deterministic_witness :
    runPipeline (constRaster (some 0)) (constRaster (some 12))
        (constRaster (some 0)) [site] =
      runPipeline (constRaster (some 0)) (constRaster (some 12))
        (constRaster (some 0)) [site] :=
  pipeline_deterministic (constRaster (some 0)) (constRaster (some 12))
    (constRaster (some 0)) [site] _ _ rfl rfl

end GMBrownfield
